import Mathlib

/-!
Shallow embedding of the VR embedded telemetry core
(`src/vr_embedded.c` of the VR-Data-Stream repository), covering the
system state machine, the error handler, the reset path, the main-loop
tick scheduling (sensor / telemetry / watchdog gates), the telemetry
send path, the lock-acquisition behaviour of the tick handler, and the
numeric formulas of the sensor update (quaternion radicand, battery
level).

Modelling conventions:
* `uint32_t` counters (`g_system_tick`, `error_count`, `reset_count`)
  are `Nat` with an explicit `% 2^32` at each increment, matching C
  unsigned wrap-around.
* The unsigned subtractions `g_system_tick - g_last_*` in the loop
  gates are `Nat` subtraction: in every run considered here the tick
  is at least the recorded last-tick and both stay far below `2^32`,
  where the two semantics agree.
* Calls whose outcome depends on the environment (`rand()` in the
  sensor self-test, RabbitMQ connection and send results, the voltage
  comparison) are explicit boolean parameters.
* Side effects that never touch the system status or the scheduling
  state (printf, the sensor ring buffer, the telemetry packet fields,
  delays) are dropped from the state; the packet's numeric formulas
  that claims C6 and C9 are about are embedded separately as functions
  of the simulation time.
-/

/-- `2^32`, the modulus of the `uint32_t` counters in the source. -/
def U32 : Nat := 4294967296

/-- `vr_system_state_t` from `include/vr_telemetry.h`. -/
inductive VrSystemState
  | init
  | ready
  | tracking
  | error
  | sleep
  | shutdown
  deriving DecidableEq, Repr

/-- `vr_embedded_config_t` from `include/vr_telemetry.h`. -/
structure VrEmbeddedConfig where
  system_clock_hz : Nat
  sensor_update_hz : Nat
  telemetry_rate_hz : Nat
  watchdog_enabled : Bool
  watchdog_timeout_ms : Nat
  power_save_enabled : Bool
  cpu_sleep_level : Nat
  deriving DecidableEq, Repr

/-- `vr_embedded_status_t` from `include/vr_telemetry.h`.  The source
field `sensors_initialized` is rendered `sensors_inited`. -/
structure VrEmbeddedStatus where
  state : VrSystemState
  uptime_ms : Nat
  last_watchdog_reset : Nat
  error_count : Nat
  reset_count : Nat
  sensors_inited : Bool
  communication_ready : Bool
  deriving DecidableEq, Repr

/-- `vr_embedded_set_state`: writes the state field (the pthread
lock/unlock pair around the write is modelled separately for C8). -/
def vr_embedded_set_state (st : VrSystemState) (s : VrEmbeddedStatus) :
    VrEmbeddedStatus :=
  { s with state := st }

/-- `vr_error_handler` (vr_embedded.c:398-406): increments
`error_count` (uint32) unconditionally, then if the new count is `> 5`
calls `vr_embedded_set_state(VR_SYSTEM_ERROR)`. -/
def vr_error_handler (s : VrEmbeddedStatus) : VrEmbeddedStatus :=
  let s' := { s with error_count := (s.error_count + 1) % U32 }
  if s'.error_count > 5 then vr_embedded_set_state VrSystemState.error s'
  else s'

/-- `vr_sensors_init` (vr_embedded.c:189-213), status effects only:
the buffer/packet writes touch no status field; a failed self-test
(`selfTestOk = false`, the `rand()` outcome) reports
`VR_ERROR_SENSOR_INIT_FAILED` through `vr_error_handler` and returns
early (skipping calibration, which itself has no status effect). -/
def vr_sensors_init (selfTestOk : Bool) (s : VrEmbeddedStatus) :
    VrEmbeddedStatus :=
  if selfTestOk then s else vr_error_handler s

/-- `vr_telemetry_init` (vr_embedded.c:311-321): when the RabbitMQ
setup fails (`rmqOk = false`) it clears `communication_ready`;
otherwise it leaves the status alone. -/
def vr_telemetry_init (rmqOk : Bool) (s : VrEmbeddedStatus) :
    VrEmbeddedStatus :=
  if rmqOk then s else { s with communication_ready := false }

/-- `vr_embedded_init` (vr_embedded.c:56-106), status effects, for a
non-null `config` argument.  It zeroes the whole status struct
(`memset`), sets `state = VR_SYSTEM_INIT`, runs `vr_sensors_init`,
`vr_power_init` (no status effect), `vr_watchdog_init` (records the
current `g_system_tick` in `last_watchdog_reset`) when the watchdog is
enabled, `vr_telemetry_init`, and finally sets `state =
VR_SYSTEM_READY`, `sensors_initialized = true` and
`communication_ready = true` unconditionally. -/
def vr_embedded_init (selfTestOk rmqOk : Bool) (tick : Nat)
    (cfg : VrEmbeddedConfig) (_s : VrEmbeddedStatus) : VrEmbeddedStatus :=
  let s : VrEmbeddedStatus :=
    { state := VrSystemState.init
      uptime_ms := 0
      last_watchdog_reset := 0
      error_count := 0
      reset_count := 0
      sensors_inited := false
      communication_ready := false }
  let s := vr_sensors_init selfTestOk s
  let s := if cfg.watchdog_enabled then { s with last_watchdog_reset := tick }
           else s
  let s := vr_telemetry_init rmqOk s
  { s with state := VrSystemState.ready
           sensors_inited := true
           communication_ready := true }

/-- `vr_system_reset` (vr_embedded.c:409-415): increments
`reset_count`, zeroes `error_count`, sets `state = VR_SYSTEM_INIT`,
then calls `vr_embedded_init(&g_embedded_config)` — whose `memset`
wipes the whole status again. -/
def vr_system_reset (selfTestOk rmqOk : Bool) (tick : Nat)
    (cfg : VrEmbeddedConfig) (s : VrEmbeddedStatus) : VrEmbeddedStatus :=
  let s := { s with reset_count := (s.reset_count + 1) % U32
                    error_count := 0
                    state := VrSystemState.init }
  vr_embedded_init selfTestOk rmqOk tick cfg s

/-- `vr_telemetry_is_ready` (vr_embedded.c:336-338). -/
def vr_telemetry_is_ready (connected : Bool) (s : VrEmbeddedStatus) : Bool :=
  s.communication_ready && connected

/-- `vr_telemetry_send_packet` (vr_embedded.c:324-333): if telemetry
is not ready it returns at once; otherwise it attempts the RabbitMQ
send (`sendOk` is its outcome) and on failure increments
`error_count` directly — it does not call `vr_error_handler`.  The
second component records whether a send was attempted. -/
def vr_telemetry_send_packet (connected sendOk : Bool)
    (s : VrEmbeddedStatus) : VrEmbeddedStatus × Bool :=
  if vr_telemetry_is_ready connected s then
    (if sendOk then (s, true)
     else ({ s with error_count := (s.error_count + 1) % U32 }, true))
  else (s, false)

/-- `vr_watchdog_feed` (vr_embedded.c:388-390): records the current
`g_system_tick` in `last_watchdog_reset`. -/
def vr_watchdog_feed (tick : Nat) (s : VrEmbeddedStatus) :
    VrEmbeddedStatus :=
  { s with last_watchdog_reset := tick }

/-- The status right after a successful `vr_embedded_init` with
watchdog start tick 0: the `READY` baseline used for concrete runs. -/
def status_ready : VrEmbeddedStatus :=
  { state := VrSystemState.ready
    uptime_ms := 0
    last_watchdog_reset := 0
    error_count := 0
    reset_count := 0
    sensors_inited := true
    communication_ready := true }

/-! ### The main loop (vr_embedded.c:109-149) and the tick handler -/

/-- The per-iteration environment of the main loop: the outcome of
`g_system_voltage < 3.0f`, of `vr_rabbitmq_is_connected()` and of
`vr_rabbitmq_send_telemetry(...)` during this iteration. -/
structure LoopEnv where
  voltage_low : Bool
  rmq_connected : Bool
  send_ok : Bool
  deriving DecidableEq, Repr

/-- The mutable state the loop-scheduling claims are about: the system
status plus the file-static timing variables of `vr_embedded.c`
(`g_system_tick`, `g_last_sensor_update`, `g_last_telemetry_send`,
`g_last_watchdog_feed`). -/
structure LoopState where
  status : VrEmbeddedStatus
  system_tick : Nat
  last_sensor_update : Nat
  last_telemetry_send : Nat
  last_watchdog_feed : Nat
  deriving DecidableEq, Repr

/-- `vr_embedded_system_tick` (vr_embedded.c:152-170): lock, increment
`g_system_tick` (uint32), mirror it into `uptime_ms`, then when
`error_count > 10` call `vr_embedded_set_state(VR_SYSTEM_ERROR)`
followed by `vr_error_handler(VR_ERROR_SENSOR_INIT_FAILED)`, then when
the voltage is low call `vr_error_handler(VR_ERROR_POWER_LOW)`,
unlock.  (The nested lock acquisitions of the inner calls are modelled
separately for C8.) -/
def vr_embedded_system_tick (voltage_low : Bool) (ls : LoopState) :
    LoopState :=
  let tick := (ls.system_tick + 1) % U32
  let st : VrEmbeddedStatus := { ls.status with uptime_ms := tick }
  let st := if st.error_count > 10 then
              vr_error_handler (vr_embedded_set_state VrSystemState.error st)
            else st
  let st := if voltage_low then vr_error_handler st else st
  { ls with system_tick := tick, status := st }

/-- The sensor-rate gate of the main loop (vr_embedded.c:116-121):
`sensor_interval = 1000 / sensor_update_hz` (uint32 division) and the
update fires when `g_system_tick - g_last_sensor_update >=
sensor_interval`.  `vr_sensors_update` itself only writes the packet
and the ring buffer, so its status effect is empty. -/
def sensorPhase (cfg : VrEmbeddedConfig) (ls : LoopState) : LoopState :=
  if 1000 / cfg.sensor_update_hz ≤ ls.system_tick - ls.last_sensor_update then
    { ls with last_sensor_update := ls.system_tick }
  else ls

/-- The telemetry-rate gate of the main loop (vr_embedded.c:123-128):
`telemetry_interval = 1000 / telemetry_rate_hz`; when due, call
`vr_telemetry_send_packet` and update `g_last_telemetry_send`
regardless of the send outcome. -/
def telemetryPhase (cfg : VrEmbeddedConfig) (env : LoopEnv)
    (ls : LoopState) : LoopState :=
  if 1000 / cfg.telemetry_rate_hz ≤ ls.system_tick - ls.last_telemetry_send then
    { ls with
        status := (vr_telemetry_send_packet env.rmq_connected env.send_ok
                     ls.status).1
        last_telemetry_send := ls.system_tick }
  else ls

/-- The watchdog gate of the main loop (vr_embedded.c:130-137): when
the watchdog is enabled and `g_system_tick - g_last_watchdog_feed >=
watchdog_timeout_ms / 2`, call `vr_watchdog_feed` and update
`g_last_watchdog_feed`. -/
def watchdogPhase (cfg : VrEmbeddedConfig) (ls : LoopState) : LoopState :=
  if cfg.watchdog_enabled then
    if cfg.watchdog_timeout_ms / 2 ≤ ls.system_tick - ls.last_watchdog_feed then
      { ls with status := vr_watchdog_feed ls.system_tick ls.status
                last_watchdog_feed := ls.system_tick }
    else ls
  else ls

/-- One iteration of `vr_embedded_main_loop`'s `while` body
(vr_embedded.c:112-146): tick handler, sensor gate, telemetry gate,
watchdog gate, in the source's order.  The power-save branch and the
100 µs delay have no effect on any modelled field. -/
def vr_embedded_loop_iter (cfg : VrEmbeddedConfig) (env : LoopEnv)
    (ls : LoopState) : LoopState :=
  watchdogPhase cfg
    (telemetryPhase cfg env
      (sensorPhase cfg
        (vr_embedded_system_tick env.voltage_low ls)))

/-- The loop state at program start: all static timing variables are
zero and the status is the post-init `READY` baseline. -/
def loopInit : LoopState :=
  { status := status_ready
    system_tick := 0
    last_sensor_update := 0
    last_telemetry_send := 0
    last_watchdog_feed := 0 }

/-- `n` iterations of the main-loop body from the initial state, with
the same per-iteration environment. -/
def runLoop (cfg : VrEmbeddedConfig) (env : LoopEnv) (n : Nat) : LoopState :=
  (vr_embedded_loop_iter cfg env)^[n] loopInit

/-- The sensor update fired during iteration `n` (`n ≥ 1`): the
recorded `g_last_sensor_update` changed in that iteration. -/
def sensorFiredAt (cfg : VrEmbeddedConfig) (env : LoopEnv) (n : Nat) : Prop :=
  (runLoop cfg env n).last_sensor_update ≠
    (runLoop cfg env (n - 1)).last_sensor_update

instance (cfg : VrEmbeddedConfig) (env : LoopEnv) (n : Nat) :
    Decidable (sensorFiredAt cfg env n) := by
  unfold sensorFiredAt; infer_instance

/-! ### Mutex acquisition traces (for C8)

`g_system_mutex` is a default (non-recursive) `pthread_mutex_t`.  The
trace of lock operations each function performs, in program order, is
read off the source; a re-entrant acquisition is an acquire executed
while the mutex is already held by the same control flow. -/

/-- One operation on `g_system_mutex`. -/
inductive LockOp
  | acquire
  | release
  deriving DecidableEq, Repr

/-- `vr_embedded_set_state` (vr_embedded.c:181-186) locks and unlocks
`g_system_mutex` around the state write. -/
def vr_embedded_set_state_locks : List LockOp :=
  [LockOp.acquire, LockOp.release]

/-- Lock operations performed by `vr_error_handler`
(vr_embedded.c:398-406) when called with `error_count = ec`: the
handler itself takes no lock, but when the incremented count exceeds 5
it calls `vr_embedded_set_state`, which does. -/
def vr_error_handler_locks (ec : Nat) : List LockOp :=
  if (ec + 1) % U32 > 5 then vr_embedded_set_state_locks else []

/-- Lock operations performed by `vr_embedded_system_tick`
(vr_embedded.c:152-170) from a status `s` with a given voltage-check
outcome: it acquires `g_system_mutex`, runs both guarded branches —
each of which may call `vr_embedded_set_state` / `vr_error_handler`
while the mutex is held — and releases it at the end. -/
def vr_embedded_system_tick_locks (s : VrEmbeddedStatus)
    (voltage_low : Bool) : List LockOp :=
  let s1 := if s.error_count > 10 then
              vr_error_handler (vr_embedded_set_state VrSystemState.error s)
            else s
  [LockOp.acquire]
    ++ (if s.error_count > 10 then
          vr_embedded_set_state_locks ++ vr_error_handler_locks s.error_count
        else [])
    ++ (if voltage_low then vr_error_handler_locks s1.error_count else [])
    ++ [LockOp.release]

/-- Whether a trace of operations on one non-recursive mutex attempts
an acquire while the mutex is already held (`d` = current hold
depth). -/
def hasReentrantAcquire : List LockOp → Nat → Bool
  | [], _ => false
  | LockOp.acquire :: rest, d => decide (1 ≤ d) || hasReentrantAcquire rest (d + 1)
  | LockOp.release :: rest, d => hasReentrantAcquire rest (d - 1)

/-! ### Numeric formulas of `vr_sensors_update` (for C6 and C9)

The head-orientation components and the battery level are the float
expressions of vr_embedded.c:233-239 and 269, read as exact real /
rational arithmetic.  The margins the claims turn on (a radicand of at
least `0.9475` against `0`, a battery argument of `-100` against the
`[0, 256)` range of `uint8_t`) are far beyond any accumulated float
rounding of these expressions. -/

/-- `head_orientation.x = sin(t * 0.2) * 0.1` (vr_embedded.c:233). -/
noncomputable def head_orientation_x (t : ℝ) : ℝ := Real.sin (t * 0.2) * 0.1

/-- `head_orientation.y = sin(t * 0.15) * 0.2` (vr_embedded.c:234). -/
noncomputable def head_orientation_y (t : ℝ) : ℝ := Real.sin (t * 0.15) * 0.2

/-- `head_orientation.z = sin(t * 0.1) * 0.05` (vr_embedded.c:235). -/
noncomputable def head_orientation_z (t : ℝ) : ℝ := Real.sin (t * 0.1) * 0.05

/-- The radicand of the `head_orientation.w` reconstruction
(vr_embedded.c:236-239): `1 - (x*x + y*y + z*z)`.  `sqrtf` of a
negative radicand would be the NaN claim C6 is about. -/
noncomputable def head_orientation_w_radicand (t : ℝ) : ℝ :=
  1 - (head_orientation_x t * head_orientation_x t +
       head_orientation_y t * head_orientation_y t +
       head_orientation_z t * head_orientation_z t)

/-- The argument of the battery-level cast (vr_embedded.c:269):
`100.0f - simulation_time * 0.1f`, as exact rational arithmetic. -/
def battery_level_raw (t : ℚ) : ℚ := 100 - t * (1 / 10)

/-- C's float-to-`uint8_t` conversion: truncation toward zero, defined
exactly when the truncated value is representable (`-1 < v < 256`);
out-of-range conversion is undefined behaviour, rendered `none`.  For
`-1 < v` truncation toward zero coincides with `Int.toNat ∘ Int.floor`. -/
def float_to_uint8 (v : ℚ) : Option Nat :=
  if -1 < v ∧ v < 256 then some (Int.toNat v.floor) else none

/-- `battery_level = (uint8_t)(100.0f - simulation_time * 0.1f)`
(vr_embedded.c:269), as a function of the simulation time `t`. -/
def battery_level (t : ℚ) : Option Nat :=
  float_to_uint8 (battery_level_raw t)

/-! ### Shared concrete inputs for witnesses and counterexamples -/

/-- The default configuration of `vr_embedded_init` / `main.c`. -/
def cfg_default : VrEmbeddedConfig :=
  { system_clock_hz := 168000000
    sensor_update_hz := 1000
    telemetry_rate_hz := 60
    watchdog_enabled := true
    watchdog_timeout_ms := 5000
    power_save_enabled := true
    cpu_sleep_level := 1 }

/-- A benign environment: voltage fine, broker connected, sends succeed. -/
def env_ok : LoopEnv := { voltage_low := false, rmq_connected := true, send_ok := true }

/-! ### Claim C1 -/

/-- Helper for C1: once the state is `Error`, `vr_error_handler` keeps
it there. -/
lemma error_state_absorbing (s : VrEmbeddedStatus)
    (h : s.state = VrSystemState.error) :
    (vr_error_handler s).state = VrSystemState.error := by
  unfold vr_error_handler vr_embedded_set_state
  dsimp only
  split
  · rfl
  · exact h

/-- Counterexample to claim C1 as stated: starting from the fresh
`READY` status, five error reports leave the counter at exactly 5 and
the state still `READY` — the report that makes the counter reach 5
does not force the state to `Error` (the guard is `error_count > 5`). -/
theorem c1_counterexample :
    (vr_error_handler^[5] status_ready).error_count = 5 ∧
    (vr_error_handler^[5] status_ready).state = VrSystemState.ready := by
  constructor <;> decide

/-- Claim C1, amended: `vr_error_handler` increments the error counter
(as a `uint32`) unconditionally on each call; the report that makes
the counter exceed 5 — i.e. reach 6, not 5 — forces the state to
`Error`; and once in `Error`, no sequence of further reports reverts
the state. -/
theorem c1_error_handler_escalates_past_five (s : VrEmbeddedStatus) (n : Nat) :
    (vr_error_handler s).error_count = (s.error_count + 1) % U32 ∧
    ((s.error_count + 1) % U32 > 5 →
      (vr_error_handler s).state = VrSystemState.error) ∧
    (s.state = VrSystemState.error →
      (vr_error_handler^[n] s).state = VrSystemState.error) := by
  refine ⟨?_, ?_, ?_⟩
  · unfold vr_error_handler vr_embedded_set_state
    dsimp only
    split <;> rfl
  · intro h
    unfold vr_error_handler vr_embedded_set_state
    dsimp only
    rw [if_pos h]
  · intro h
    induction n with
    | zero => exact h
    | succ n ih =>
      rw [Function.iterate_succ_apply']
      exact error_state_absorbing _ ih

/-- A status in the `Error` state with error counter 7, used by the
C1 witness. -/
def status_err7 : VrEmbeddedStatus :=
  { status_ready with error_count := 7, state := VrSystemState.error }

/-- Witness for the amended C1, at a status in `Error` with counter 7:
the next report brings the counter to 8 and the state stays `Error`,
also after three further reports. -/
theorem c1_witness :
    (vr_error_handler status_err7).error_count = 8 ∧
    (vr_error_handler status_err7).state = VrSystemState.error ∧
    (vr_error_handler^[3] status_err7).state = VrSystemState.error := by
  have h := c1_error_handler_escalates_past_five status_err7 3
  exact ⟨h.1.trans (by decide), h.2.1 (by decide), h.2.2 (by decide)⟩

/-! ### Claim C2 -/

/-- An errored status with three resets on record, the failing input
of claim C2. -/
def status_pre_reset : VrEmbeddedStatus :=
  { status_ready with reset_count := 3, error_count := 7,
                      state := VrSystemState.error }

/-- Claim C2 evaluated at its failing input: a reset from a status
with `reset_count = 3` ends with `reset_count = 0`, not 4 — the
increment in `vr_system_reset` is wiped out by the `memset` inside the
`vr_embedded_init` it then calls.  The error counter is zeroed and the
state goes `Init → Ready` (through re-initialization), as claimed. -/
theorem c2_reset_count_wiped :
    (vr_system_reset true true 0 cfg_default status_pre_reset).reset_count = 0 ∧
    (vr_system_reset true true 0 cfg_default status_pre_reset).error_count = 0 ∧
    (vr_system_reset true true 0 cfg_default status_pre_reset).state =
      VrSystemState.ready := by
  refine ⟨?_, ?_, ?_⟩ <;> decide

/-! ### Claim C7 -/

/-- Counterexample to claim C7 as stated: with a failed sensor
self-test (`selfTestOk = false`, recorded by the error counter ending
at 1), `vr_embedded_init` still returns with state `READY` — the
`Init → Ready` transition is not conditioned on the self-test. -/
theorem c7_counterexample :
    (vr_embedded_init false true 0 cfg_default status_ready).state =
      VrSystemState.ready ∧
    (vr_embedded_init false true 0 cfg_default status_ready).error_count = 1 := by
  constructor <;> decide

/-- Claim C7, amended: after `vr_embedded_init` returns, the state is
`READY` unconditionally — also when the self-test failed; a failed
self-test only reports one error (leaving the counter at 1, which does
not trip the `> 5` guard) and skips calibration.  The
sensors-initialized and communication-ready flags are likewise set
unconditionally. -/
theorem c7_init_state_ready_unconditionally (selfTestOk rmqOk : Bool)
    (tick : Nat) (cfg : VrEmbeddedConfig) (s : VrEmbeddedStatus) :
    (vr_embedded_init selfTestOk rmqOk tick cfg s).state =
      VrSystemState.ready ∧
    (vr_embedded_init selfTestOk rmqOk tick cfg s).error_count =
      (if selfTestOk then 0 else 1) ∧
    (vr_embedded_init selfTestOk rmqOk tick cfg s).sensors_inited = true ∧
    (vr_embedded_init selfTestOk rmqOk tick cfg s).communication_ready = true := by
  obtain ⟨chz, shz, thz, wd, wto, ps, sl⟩ := cfg
  cases selfTestOk <;> cases rmqOk <;> cases wd <;>
    simp [vr_embedded_init, vr_sensors_init, vr_telemetry_init,
      vr_error_handler, vr_embedded_set_state, U32]

/-! ### Claim C8 -/

/-- Claim C8 evaluated at its failing inputs: the per-tick handler
`vr_embedded_system_tick` acquires `g_system_mutex` and then — on the
`error_count > 10` branch, and likewise on the low-voltage branch once
the incremented count exceeds 5 — calls `vr_embedded_set_state`, which
acquires the same non-recursive mutex again while it is held. -/
theorem c8_tick_reentrant_lock :
    hasReentrantAcquire
      (vr_embedded_system_tick_locks
        { status_ready with error_count := 11 } false) 0 = true ∧
    hasReentrantAcquire
      (vr_embedded_system_tick_locks
        { status_ready with error_count := 5 } true) 0 = true := by
  constructor <;> decide

/-! ### Claim C9 -/

/-- Counterexample to claim C9 as stated: at simulation time
`t = 2000` seconds the cast argument `100 - 0.1 * t` is `-100`,
outside the `uint8` range, and the source applies no clamp — the
conversion is an out-of-range (undefined-behaviour) cast, not a
truncation into `[0, 255]`. -/
theorem c9_counterexample : battery_level 2000 = none := by
  have h : ¬((-1 : ℚ) < battery_level_raw 2000 ∧ battery_level_raw 2000 < 256) := by
    unfold battery_level_raw
    norm_num
  unfold battery_level float_to_uint8
  rw [if_neg h]

/-- Claim C9, amended: for simulation times `t` in `[0, 1000]`
seconds the battery level is the truncation of `100 - 0.1 * t` and
lies in `[0, 100]`; beyond that (once the cast argument drops below
`-1`, i.e. `t ≥ 1010`) the conversion input is outside the `uint8`
range and the source does not clamp it. -/
theorem c9_battery_in_range_before_1000s (t : ℚ) (h0 : 0 ≤ t)
    (h1 : t ≤ 1000) :
    battery_level t = some (battery_level_raw t).floor.toNat ∧
    (battery_level_raw t).floor.toNat ≤ 100 := by
  have hraw0 : (0 : ℚ) ≤ battery_level_raw t := by
    unfold battery_level_raw; linarith
  have hraw1 : battery_level_raw t ≤ 100 := by
    unfold battery_level_raw; linarith
  constructor
  · unfold battery_level float_to_uint8
    rw [if_pos ⟨by linarith, by linarith⟩]
  · have hfl : (battery_level_raw t).floor ≤ 100 := by
      have h := Int.floor_le_floor hraw1
      simpa using h
    omega

/-- Witness for the amended C9 at `t = 500`: the battery level is
`some 50`. -/
theorem c9_witness :
    battery_level 500 = some (battery_level_raw 500).floor.toNat ∧
    (battery_level_raw 500).floor.toNat ≤ 100 :=
  c9_battery_in_range_before_1000s 500 (by norm_num) (by norm_num)

/-! ### Claim C10 -/

/-- Claim C10: when telemetry is not ready (communication-ready flag
false, or broker not connected), `vr_telemetry_send_packet` returns
the status unchanged and attempts no send — the packet is dropped with
no error recorded. -/
theorem c10_send_packet_noop_when_not_ready (connected sendOk : Bool)
    (s : VrEmbeddedStatus)
    (h : s.communication_ready = false ∨ connected = false) :
    vr_telemetry_send_packet connected sendOk s = (s, false) := by
  unfold vr_telemetry_send_packet vr_telemetry_is_ready
  rcases h with h | h <;> simp [h]

/-- Witness for C10: with the communication-ready flag cleared, a send
attempt leaves the status untouched and performs no send. -/
theorem c10_witness :
    vr_telemetry_send_packet true false
      { status_ready with communication_ready := false } =
      ({ status_ready with communication_ready := false }, false) :=
  c10_send_packet_noop_when_not_ready true false _ (Or.inl rfl)

/-! ### Claim C6 -/

/-- Claim C6: the radicand of the quaternion-`w` reconstruction in
`vr_sensors_update` is nonnegative for every simulation time — with
the amplitudes of the source (`0.1`, `0.2`, `0.05`) it is at least
`0.9475`, so the square root never sees a negative argument and never
produces a NaN; this covers in particular every `t` in `[0, 10000]`
sampled at `0.001` s steps. -/
theorem c6_radicand_nonneg (t : ℝ) : 0 ≤ head_orientation_w_radicand t := by
  unfold head_orientation_w_radicand head_orientation_x head_orientation_y
    head_orientation_z
  nlinarith [Real.sin_sq_le_one (t * 0.2), Real.sin_sq_le_one (t * 0.15),
    Real.sin_sq_le_one (t * 0.1), Real.neg_one_le_sin (t * 0.2),
    Real.neg_one_le_sin (t * 0.15), Real.neg_one_le_sin (t * 0.1),
    sq_nonneg (Real.sin (t * 0.2)), sq_nonneg (Real.sin (t * 0.15)),
    sq_nonneg (Real.sin (t * 0.1))]

/-! ### Projection lemmas for the loop phases -/

/-- The tick handler advances `g_system_tick` by one (uint32). -/
lemma system_tick_tick (v : Bool) (ls : LoopState) :
    (vr_embedded_system_tick v ls).system_tick = (ls.system_tick + 1) % U32 :=
  rfl

/-- The tick handler does not touch the sensor timing variable. -/
lemma system_tick_last_sensor (v : Bool) (ls : LoopState) :
    (vr_embedded_system_tick v ls).last_sensor_update = ls.last_sensor_update :=
  rfl

/-- The tick handler does not touch the telemetry timing variable. -/
lemma system_tick_last_telemetry (v : Bool) (ls : LoopState) :
    (vr_embedded_system_tick v ls).last_telemetry_send = ls.last_telemetry_send :=
  rfl

/-- The sensor gate leaves the tick unchanged. -/
lemma sensorPhase_tick (cfg : VrEmbeddedConfig) (ls : LoopState) :
    (sensorPhase cfg ls).system_tick = ls.system_tick := by
  unfold sensorPhase; split <;> rfl

/-- The sensor gate leaves the status unchanged. -/
lemma sensorPhase_status (cfg : VrEmbeddedConfig) (ls : LoopState) :
    (sensorPhase cfg ls).status = ls.status := by
  unfold sensorPhase; split <;> rfl

/-- The sensor gate leaves the telemetry timing variable unchanged. -/
lemma sensorPhase_last_telemetry (cfg : VrEmbeddedConfig) (ls : LoopState) :
    (sensorPhase cfg ls).last_telemetry_send = ls.last_telemetry_send := by
  unfold sensorPhase; split <;> rfl

/-- The sensor timing variable after the sensor gate. -/
lemma sensorPhase_last_sensor (cfg : VrEmbeddedConfig) (ls : LoopState) :
    (sensorPhase cfg ls).last_sensor_update =
      (if 1000 / cfg.sensor_update_hz ≤ ls.system_tick - ls.last_sensor_update
       then ls.system_tick else ls.last_sensor_update) := by
  unfold sensorPhase; split <;> simp_all

/-- The telemetry phase leaves the tick unchanged. -/
lemma telemetryPhase_tick (cfg : VrEmbeddedConfig) (env : LoopEnv)
    (ls : LoopState) :
    (telemetryPhase cfg env ls).system_tick = ls.system_tick := by
  unfold telemetryPhase; split <;> rfl

/-- The telemetry phase leaves the sensor timing variable unchanged. -/
lemma telemetryPhase_last_sensor (cfg : VrEmbeddedConfig) (env : LoopEnv)
    (ls : LoopState) :
    (telemetryPhase cfg env ls).last_sensor_update = ls.last_sensor_update := by
  unfold telemetryPhase; split <;> rfl

/-- The watchdog phase leaves the tick unchanged. -/
lemma watchdogPhase_tick (cfg : VrEmbeddedConfig) (ls : LoopState) :
    (watchdogPhase cfg ls).system_tick = ls.system_tick := by
  unfold watchdogPhase
  split
  · split <;> rfl
  · rfl

/-- The watchdog phase leaves the sensor timing variable unchanged. -/
lemma watchdogPhase_last_sensor (cfg : VrEmbeddedConfig) (ls : LoopState) :
    (watchdogPhase cfg ls).last_sensor_update = ls.last_sensor_update := by
  unfold watchdogPhase
  split
  · split <;> rfl
  · rfl

/-- The watchdog phase leaves the telemetry timing variable unchanged. -/
lemma watchdogPhase_last_telemetry (cfg : VrEmbeddedConfig) (ls : LoopState) :
    (watchdogPhase cfg ls).last_telemetry_send = ls.last_telemetry_send := by
  unfold watchdogPhase
  split
  · split <;> rfl
  · rfl

/-- The watchdog phase changes at most `last_watchdog_reset` in the
status: state and error counter are untouched. -/
lemma watchdogPhase_state_and_errors (cfg : VrEmbeddedConfig) (ls : LoopState) :
    (watchdogPhase cfg ls).status.state = ls.status.state ∧
    (watchdogPhase cfg ls).status.error_count = ls.status.error_count := by
  unfold watchdogPhase vr_watchdog_feed
  split
  · split <;> exact ⟨rfl, rfl⟩
  · exact ⟨rfl, rfl⟩

/-- One loop iteration advances the tick by one (uint32). -/
lemma loop_iter_tick (cfg : VrEmbeddedConfig) (env : LoopEnv)
    (ls : LoopState) :
    (vr_embedded_loop_iter cfg env ls).system_tick =
      (ls.system_tick + 1) % U32 := by
  unfold vr_embedded_loop_iter
  rw [watchdogPhase_tick, telemetryPhase_tick, sensorPhase_tick,
    system_tick_tick]

/-- The sensor timing variable after one loop iteration: the gate is
evaluated against the freshly incremented tick. -/
lemma loop_iter_last_sensor (cfg : VrEmbeddedConfig) (env : LoopEnv)
    (ls : LoopState) :
    (vr_embedded_loop_iter cfg env ls).last_sensor_update =
      (if 1000 / cfg.sensor_update_hz ≤
          (ls.system_tick + 1) % U32 - ls.last_sensor_update
       then (ls.system_tick + 1) % U32 else ls.last_sensor_update) := by
  unfold vr_embedded_loop_iter
  rw [watchdogPhase_last_sensor, telemetryPhase_last_sensor,
    sensorPhase_last_sensor, system_tick_tick, system_tick_last_sensor]

/-! ### The sensor-gate boundary arithmetic (claim C4) -/

/-- The sensor gate condition, at the tick `n + 1` and with the
recorded last-update sitting at the previous interval boundary
`i * (n / i)`, holds exactly when `n + 1` is a multiple of `i`. -/
lemma sensor_gate_iff (i n : Nat) (hi : 0 < i) :
    (i ≤ (n + 1) - i * (n / i)) ↔ (n + 1) % i = 0 := by
  have hm : i * (n / i) ≤ n := Nat.mul_div_le n i
  have hmul : (n / i + 1) * i = i + i * (n / i) := by ring
  rw [Nat.le_sub_iff_add_le (le_trans hm (Nat.le_succ n)), ← hmul,
    ← Nat.le_div_iff_mul_le hi]
  by_cases hd : i ∣ (n + 1)
  · have h0 : (n + 1) % i = 0 := Nat.dvd_iff_mod_eq_zero.mp hd
    rw [Nat.succ_div_of_dvd hd]
    simp [h0]
  · have h0 : ¬ (n + 1) % i = 0 := fun h => hd (Nat.dvd_iff_mod_eq_zero.mpr h)
    rw [Nat.succ_div_of_not_dvd hd]
    simp [h0]

/-- Invariant of the 10000-tick run (claim C4): after `n` iterations
the tick is `n`, and the recorded `g_last_sensor_update` is `n` itself
when the computed interval is 0, and the largest multiple of the
interval not exceeding `n` otherwise. -/
lemma runLoop_sensor_invariant (cfg : VrEmbeddedConfig) (env : LoopEnv) :
    ∀ n, n ≤ 10000 →
      (runLoop cfg env n).system_tick = n ∧
      (runLoop cfg env n).last_sensor_update =
        (if 1000 / cfg.sensor_update_hz = 0 then n
         else 1000 / cfg.sensor_update_hz * (n / (1000 / cfg.sensor_update_hz))) := by
  intro n
  induction n with
  | zero =>
    intro _
    refine ⟨rfl, ?_⟩
    split <;> simp [runLoop, loopInit]
  | succ n ih =>
    intro hle
    obtain ⟨htick, hlast⟩ := ih (le_trans (Nat.le_succ n) hle)
    have hstep : runLoop cfg env (n + 1) =
        vr_embedded_loop_iter cfg env (runLoop cfg env n) := by
      unfold runLoop
      rw [Function.iterate_succ_apply']
    have hmod : (n + 1) % U32 = n + 1 :=
      Nat.mod_eq_of_lt (by unfold U32; omega)
    constructor
    · rw [hstep, loop_iter_tick, htick, hmod]
    · rw [hstep, loop_iter_last_sensor, htick, hmod, hlast]
      by_cases h0 : 1000 / cfg.sensor_update_hz = 0
      · simp [h0]
      · have hi : 0 < 1000 / cfg.sensor_update_hz := Nat.pos_of_ne_zero h0
        rw [if_neg h0, if_neg h0]
        by_cases hd : (1000 / cfg.sensor_update_hz) ∣ (n + 1)
        · have hfire := (sensor_gate_iff _ n hi).mpr
            (Nat.dvd_iff_mod_eq_zero.mp hd)
          rw [if_pos hfire, Nat.mul_div_cancel' hd]
        · have hmodz : ¬ (n + 1) % (1000 / cfg.sensor_update_hz) = 0 :=
            fun h => hd (Nat.dvd_iff_mod_eq_zero.mpr h)
          rw [if_neg (fun h => hmodz ((sensor_gate_iff _ n hi).mp h)),
            Nat.succ_div_of_not_dvd hd]

/-! ### Claim C4 -/

/-- A configuration with a 2000 Hz sensor rate (above the 1000 Hz
saturation point), used by the C4 witness. -/
def cfg_fast : VrEmbeddedConfig := { cfg_default with sensor_update_hz := 2000 }

/-- Claim C4: with the scheduler computing the sensor interval as the
integer division `1000 / sensor_update_hz`, a rate above 1000 Hz
collapses the interval to 0; and over a 10000-tick run the sensor
update fires at iteration `n` exactly when the interval is 0 (every
tick) or `n` is a multiple of the interval — once per interval
boundary crossing, no double-fire, no skip. -/
theorem c4_sensor_gate_boundary (cfg : VrEmbeddedConfig) (env : LoopEnv)
    (_hr : 1 ≤ cfg.sensor_update_hz) :
    (1000 < cfg.sensor_update_hz → 1000 / cfg.sensor_update_hz = 0) ∧
    ∀ n, 1 ≤ n → n ≤ 10000 →
      (sensorFiredAt cfg env n ↔
        (1000 / cfg.sensor_update_hz = 0 ∨
         n % (1000 / cfg.sensor_update_hz) = 0)) := by
  constructor
  · intro h
    exact Nat.div_eq_of_lt h
  · intro n h1 h10
    obtain ⟨m, rfl⟩ : ∃ m, n = m + 1 := ⟨n - 1, by omega⟩
    have hA := runLoop_sensor_invariant cfg env (m + 1) h10
    have hB := runLoop_sensor_invariant cfg env m (by omega)
    unfold sensorFiredAt
    rw [Nat.add_sub_cancel, hA.2, hB.2]
    by_cases h0 : 1000 / cfg.sensor_update_hz = 0
    · simp [h0]
    · have hi : 0 < 1000 / cfg.sensor_update_hz := Nat.pos_of_ne_zero h0
      rw [if_neg h0, if_neg h0]
      constructor
      · intro hne
        refine Or.inr ?_
        by_contra hmod
        have hdiv : (m + 1) / (1000 / cfg.sensor_update_hz) =
            m / (1000 / cfg.sensor_update_hz) :=
          Nat.succ_div_of_not_dvd
            (fun hd => hmod (Nat.dvd_iff_mod_eq_zero.mp hd))
        exact hne (by rw [hdiv])
      · intro hOr
        rcases hOr with h | hmod
        · exact absurd h h0
        · have hd := Nat.dvd_iff_mod_eq_zero.mpr hmod
          rw [Nat.succ_div_of_dvd hd, Nat.mul_add, Nat.mul_one]
          exact Nat.ne_of_gt (Nat.lt_add_of_pos_right hi)

/-- Witness for C4 at sensor rate 2000 Hz (above the saturation
point): the interval is 0 and the sensor update fires at tick 7. -/
theorem c4_witness :
    1000 / cfg_fast.sensor_update_hz = 0 ∧ sensorFiredAt cfg_fast env_ok 7 := by
  have h := c4_sensor_gate_boundary cfg_fast env_ok (by decide)
  exact ⟨h.1 (by decide),
    (h.2 7 (by decide) (by decide)).mpr (Or.inl (h.1 (by decide)))⟩

/-! ### Claim C3 -/

/-- The tick handler with a healthy error count and normal voltage
only refreshes the uptime mirror of the status. -/
lemma system_tick_benign (ls : LoopState)
    (hec : ls.status.error_count ≤ 10) :
    (vr_embedded_system_tick false ls).status =
      { ls.status with uptime_ms := (ls.system_tick + 1) % U32 } := by
  have hc : ¬ (ls.status.error_count > 10) := by omega
  simp [vr_embedded_system_tick, hc]

/-- The send path never changes the state field. -/
lemma send_packet_state (c k : Bool) (s : VrEmbeddedStatus) :
    ((vr_telemetry_send_packet c k s).1).state = s.state := by
  unfold vr_telemetry_send_packet vr_telemetry_is_ready
  split
  · split <;> rfl
  · rfl

/-- The error counter after the send path: incremented (uint32)
exactly when telemetry was ready and the send failed. -/
lemma send_packet_error_count (c k : Bool) (s : VrEmbeddedStatus) :
    ((vr_telemetry_send_packet c k s).1).error_count =
      (if s.communication_ready && c && !k then (s.error_count + 1) % U32
       else s.error_count) := by
  unfold vr_telemetry_send_packet vr_telemetry_is_ready
  cases hc : s.communication_ready <;> cases c <;> cases k <;> simp

/-- The watchdog phase leaves the state field unchanged. -/
lemma watchdogPhase_state (cfg : VrEmbeddedConfig) (ls : LoopState) :
    (watchdogPhase cfg ls).status.state = ls.status.state :=
  (watchdogPhase_state_and_errors cfg ls).1

/-- The watchdog phase leaves the error counter unchanged. -/
lemma watchdogPhase_error_count (cfg : VrEmbeddedConfig) (ls : LoopState) :
    (watchdogPhase cfg ls).status.error_count = ls.status.error_count :=
  (watchdogPhase_state_and_errors cfg ls).2

/-- Counterexample to claim C3 as stated: six consecutive sink
failures (telemetry ready, broker connected, every send failing) bring
the error counter to 6 — past the threshold of 5 — yet the state is
still `READY`: the send path increments the counter directly and never
evaluates the escalation threshold. -/
theorem c3_counterexample :
    ((fun s => (vr_telemetry_send_packet true false s).1)^[6]
      status_ready).error_count = 6 ∧
    ((fun s => (vr_telemetry_send_packet true false s).1)^[6]
      status_ready).state = VrSystemState.ready := by
  constructor <;> decide

/-- Claim C3, amended: on a telemetry-due tick (with normal voltage
and an error count at most 10, isolating the telemetry path),
`last_telemetry_send` is updated to the new tick regardless of the
send outcome; a sink failure increments the error counter directly —
bypassing `vr_error_handler`, so no escalation threshold is evaluated
and the state is unchanged by the send, whatever the counter reaches.
State `Error` can only arise later, from the tick handler's `> 10`
guard. -/
theorem c3_telemetry_failure_no_escalation (cfg : VrEmbeddedConfig)
    (env : LoopEnv) (ls : LoopState)
    (hv : env.voltage_low = false)
    (hec : ls.status.error_count ≤ 10)
    (hdue : 1000 / cfg.telemetry_rate_hz ≤
      (ls.system_tick + 1) % U32 - ls.last_telemetry_send) :
    (vr_embedded_loop_iter cfg env ls).last_telemetry_send =
      (ls.system_tick + 1) % U32 ∧
    (vr_embedded_loop_iter cfg env ls).status.state = ls.status.state ∧
    (vr_embedded_loop_iter cfg env ls).status.error_count =
      (if ls.status.communication_ready && env.rmq_connected && !env.send_ok
       then (ls.status.error_count + 1) % U32 else ls.status.error_count) := by
  unfold vr_embedded_loop_iter
  rw [hv]
  have h1 := system_tick_benign ls hec
  have hgate : 1000 / cfg.telemetry_rate_hz ≤
      (sensorPhase cfg (vr_embedded_system_tick false ls)).system_tick -
      (sensorPhase cfg (vr_embedded_system_tick false ls)).last_telemetry_send := by
    rw [sensorPhase_tick, sensorPhase_last_telemetry, system_tick_tick,
      system_tick_last_telemetry]
    exact hdue
  have h3 : telemetryPhase cfg env
      (sensorPhase cfg (vr_embedded_system_tick false ls)) =
      { sensorPhase cfg (vr_embedded_system_tick false ls) with
          status := (vr_telemetry_send_packet env.rmq_connected env.send_ok
            (sensorPhase cfg (vr_embedded_system_tick false ls)).status).1
          last_telemetry_send :=
            (sensorPhase cfg (vr_embedded_system_tick false ls)).system_tick } := by
    unfold telemetryPhase
    rw [if_pos hgate]
  rw [h3]
  refine ⟨?_, ?_, ?_⟩
  · rw [watchdogPhase_last_telemetry]
    dsimp only
    rw [sensorPhase_tick, system_tick_tick]
  · rw [watchdogPhase_state]
    dsimp only
    rw [send_packet_state, sensorPhase_status, h1]
  · rw [watchdogPhase_error_count]
    dsimp only
    rw [send_packet_error_count, sensorPhase_status, h1]

/-- A status with error counter 5, one failure short of the threshold,
used by the C3 witness. -/
def status_err5 : VrEmbeddedStatus := { status_ready with error_count := 5 }

/-- Loop state at tick 15 with telemetry last sent at tick 0, so the
60 Hz telemetry gate (interval 16) is due on the next iteration. -/
def ls_c3 : LoopState :=
  { status := status_err5
    system_tick := 15
    last_sensor_update := 15
    last_telemetry_send := 0
    last_watchdog_feed := 15 }

/-- An environment whose broker is connected but whose sends fail. -/
def env_fail : LoopEnv :=
  { voltage_low := false, rmq_connected := true, send_ok := false }

/-- Witness for the amended C3: on the telemetry-due iteration from
`ls_c3` with a failing sink, `last_telemetry_send` becomes 16, the
error counter goes from 5 to 6 — past the claimed threshold — and the
state stays `READY`. -/
theorem c3_witness :
    (vr_embedded_loop_iter cfg_default env_fail ls_c3).last_telemetry_send = 16 ∧
    (vr_embedded_loop_iter cfg_default env_fail ls_c3).status.state =
      VrSystemState.ready ∧
    (vr_embedded_loop_iter cfg_default env_fail ls_c3).status.error_count = 6 := by
  have h := c3_telemetry_failure_no_escalation cfg_default env_fail ls_c3
    rfl (by decide) (by decide)
  exact ⟨h.1.trans (by decide), h.2.1.trans (by decide), h.2.2.trans (by decide)⟩

/-! ### Claim C5 -/

/-- A watchdog configuration with a 4-tick timeout (feed cadence 2),
used for the C5 failing input. -/
def cfg_c5 : VrEmbeddedConfig :=
  { cfg_default with watchdog_timeout_ms := 4 }

/-- A loop state whose watchdog is long expired: current tick 8, last
feed recorded at tick 0, twice the 4-tick timeout ago. -/
def ls_c5 : LoopState :=
  { status := status_ready
    system_tick := 8
    last_sensor_update := 8
    last_telemetry_send := 8
    last_watchdog_feed := 0 }

/-- Claim C5 evaluated at its failing input: from a state whose
watchdog has missed two consecutive feeds (`now_tick - last_fed = 9 ≥
2 × timeout`), the next loop iteration merely re-feeds the watchdog
(recording tick 9) and reports nothing — the error counter and the
state are unchanged, because the source contains no expiry check and
never raises `VR_ERROR_WATCHDOG_TIMEOUT`. -/
theorem c5_expired_watchdog_unreported :
    (vr_embedded_loop_iter cfg_c5 env_ok ls_c5).status.error_count = 0 ∧
    (vr_embedded_loop_iter cfg_c5 env_ok ls_c5).status.state =
      VrSystemState.ready ∧
    (vr_embedded_loop_iter cfg_c5 env_ok ls_c5).status.last_watchdog_reset = 9 := by
  refine ⟨?_, ?_, ?_⟩ <;> decide
